import Mathlib

/-!
Verification of the Stackdriver datasource plugin
(`src/public/app/plugins/datasource/stackdriver/datasource.ts`).

The TypeScript class `StackdriverDatasource` is shallowly embedded here.
External collaborators are modelled as explicit parameters:

* `templateSrv` becomes a `TemplateSrv` record of pure substitution
  functions (`replace` for plain interpolation with the scoped variables
  of the call already applied, `replaceCsv` for interpolation with the
  format argument set to csv);
* `backendSrv.datasourceRequest` becomes a pure transport function; the
  requests a method issues are returned alongside its result so that
  network-call counts are observable;
* the mutable instance fields (`projectName`, `metricTypes`, ...) become
  an explicit `DsState` value threaded through the methods.

JavaScript runtime values that can reach the error formatter are
modelled by the inductive `JVal`; property access on `null`/`undefined`
throws a `JsErr.typeError`, exactly as in JavaScript.  `JSON.parse` is
modelled by `jsonParse`, a fuel-indexed recursive-descent parser; as a
model simplification its numbers are integers (a non-integer numeric
literal makes the parse fail) and unicode escapes are not decoded.
-/

namespace Stackdriver

/-- A JavaScript runtime value, as far as the datasource code inspects
one: the error objects handed to `formatStackdriverError` and the values
produced by `JSON.parse`. -/
inductive JVal where
  | undefined
  | null
  | bool (b : Bool)
  | num (n : Int)
  | str (s : String)
  | arr (xs : List JVal)
  | obj (fields : List (String × JVal))

/-- JavaScript exceptions the embedded code can raise. -/
inductive JsErr where
  | typeError
deriving DecidableEq, Repr

/-- JavaScript truthiness of a value. -/
def truthy : JVal → Bool
  | .undefined => false
  | .null => false
  | .bool b => b
  | .num n => n != 0
  | .str s => s != ""
  | .arr _ => true
  | .obj _ => true

mutual

/-- Nesting depth of a value, used as recursion fuel for string
coercion of nested arrays. -/
def jdepth : JVal → Nat
  | .arr xs => jdepthList xs + 1
  | .obj fs => jdepthFields fs + 1
  | _ => 1

/-- Maximal depth of the values in a list. -/
def jdepthList : List JVal → Nat
  | [] => 0
  | v :: vs => max (jdepth v) (jdepthList vs)

/-- Maximal depth of the values of an association list. -/
def jdepthFields : List (String × JVal) → Nat
  | [] => 0
  | p :: ps => max (jdepth p.2) (jdepthFields ps)

end

/-- JavaScript string coercion, with structural fuel for nested arrays
(`Array.prototype.toString` joins the coerced elements with commas and
renders `null`/`undefined` elements as empty strings). -/
def jsToStringFuel : Nat → JVal → String
  | _, .undefined => "undefined"
  | _, .null => "null"
  | _, .bool b => if b then "true" else "false"
  | _, .num n => toString n
  | _, .str s => s
  | _, .obj _ => "[object Object]"
  | 0, .arr _ => ""
  | f + 1, .arr xs =>
      String.intercalate ","
        (xs.map (fun v =>
          match v with
          | .undefined => ""
          | .null => ""
          | w => jsToStringFuel f w))

/-- JavaScript string coercion of a value (the fuel `jdepth v`
dominates the nesting depth by construction). -/
def jsToString (v : JVal) : String := jsToStringFuel (jdepth v) v

/-- JavaScript property access `v[key]`: throws a `TypeError` on
`null`/`undefined`, yields the last binding of the key on objects
(matching object-literal and `JSON.parse` duplicate-key semantics), and
`undefined` on every other value. -/
def getProp (v : JVal) (key : String) : Except JsErr JVal :=
  match v with
  | .undefined => .error .typeError
  | .null => .error .typeError
  | .obj fields =>
      match (fields.filter (fun p => p.1 == key)).getLast? with
      | some p => .ok p.2
      | none => .ok .undefined
  | _ => .ok .undefined

/-- The opening-brace character, by code point. -/
def lbrace : Char := Char.ofNat 123

/-- The closing-brace character, by code point. -/
def rbrace : Char := Char.ofNat 125

/-- Drop leading JSON whitespace (space, tab, line feed, carriage
return, by code point). -/
def skipWs : List Char → List Char
  | c :: cs =>
      if c.toNat = 32 ∨ c.toNat = 9 ∨ c.toNat = 10 ∨ c.toNat = 13 then skipWs cs
      else c :: cs
  | [] => []

/-- Decode one JSON string escape character (unicode escapes are not
modelled and make the parse fail).  The quote, backslash and slash
escapes denote themselves. -/
def escChar (e : Char) : Option Char :=
  if e = '"' ∨ e = '\\' ∨ e = '/' then some e
  else if e = 'n' then some '\n'
  else if e = 't' then some '\t'
  else if e = 'r' then some '\r'
  else if e = 'b' then some (Char.ofNat 8)
  else if e = 'f' then some (Char.ofNat 12)
  else none

/-- Scan the body of a JSON string literal up to its closing quote. -/
def parseJStringAux (acc : List Char) : List Char → Option (String × List Char)
  | [] => none
  | '\\' :: rest =>
      match rest with
      | [] => none
      | e :: rest2 =>
          match escChar e with
          | some c => parseJStringAux (c :: acc) rest2
          | none => none
  | '"' :: rest => some (String.mk acc.reverse, rest)
  | c :: rest => parseJStringAux (c :: acc) rest

/-- Accumulate a run of decimal digits. -/
def digitsToNat (acc : Nat) : List Char → Nat × List Char
  | c :: cs => if c.isDigit then digitsToNat (acc * 10 + (c.toNat - 48)) cs else (acc, c :: cs)
  | [] => (acc, [])

/-- Parse a JSON natural-number literal (rejecting a following fraction
or exponent, which the integer-only model does not support). -/
def parseJNat (cs : List Char) : Option (Nat × List Char) :=
  match cs with
  | c :: _ =>
      if c.isDigit then
        match digitsToNat 0 cs with
        | (n, rest) =>
          match rest with
          | d :: _ => if d = '.' ∨ d = 'e' ∨ d = 'E' then none else some (n, rest)
          | [] => some (n, [])
      else none
  | [] => none

/-- Parse a JSON integer literal with optional sign. -/
def parseJNum (cs : List Char) : Option (Int × List Char) :=
  match cs with
  | '-' :: rest => (parseJNat rest).map (fun p => (-(p.1 : Int), p.2))
  | _ => (parseJNat cs).map (fun p => ((p.1 : Int), p.2))

mutual

/-- Recursive-descent parser for one JSON value, indexed by fuel. -/
def parseJVal : Nat → List Char → Option (JVal × List Char)
  | 0, _ => none
  | fuel + 1, cs =>
    match skipWs cs with
    | 'n' :: 'u' :: 'l' :: 'l' :: rest => some (.null, rest)
    | 't' :: 'r' :: 'u' :: 'e' :: rest => some (.bool true, rest)
    | 'f' :: 'a' :: 'l' :: 's' :: 'e' :: rest => some (.bool false, rest)
    | '"' :: rest => (parseJStringAux [] rest).map (fun p => (JVal.str p.1, p.2))
    | '[' :: rest =>
        (match skipWs rest with
         | ']' :: r2 => some (JVal.arr [], r2)
         | body => (parseJArrayItems fuel body).map (fun p => (JVal.arr p.1, p.2)))
    | c :: rest =>
        if c = lbrace then
          (match skipWs rest with
           | [] => none
           | c2 :: r2 =>
               if c2 = rbrace then some (JVal.obj [], r2)
               else (parseJObjItems fuel (c2 :: r2)).map (fun p => (JVal.obj p.1, p.2)))
        else if c.isDigit ∨ c = '-' then
          (parseJNum (c :: rest)).map (fun p => (JVal.num p.1, p.2))
        else none
    | [] => none

/-- Parse the comma-separated items of a JSON array after its bracket. -/
def parseJArrayItems : Nat → List Char → Option (List JVal × List Char)
  | 0, _ => none
  | fuel + 1, cs =>
    match parseJVal fuel cs with
    | none => none
    | some (v, rest) =>
        match skipWs rest with
        | ',' :: r2 => (parseJArrayItems fuel r2).map (fun p => (v :: p.1, p.2))
        | ']' :: r2 => some ([v], r2)
        | _ => none

/-- Parse the comma-separated members of a JSON object after its brace. -/
def parseJObjItems : Nat → List Char → Option (List (String × JVal) × List Char)
  | 0, _ => none
  | fuel + 1, cs =>
    match skipWs cs with
    | '"' :: rest =>
        (match parseJStringAux [] rest with
         | none => none
         | some (k, r1) =>
            match skipWs r1 with
            | ':' :: r2 =>
                (match parseJVal fuel r2 with
                 | none => none
                 | some (v, r3) =>
                    match skipWs r3 with
                    | ',' :: r4 => (parseJObjItems fuel r4).map (fun p => ((k, v) :: p.1, p.2))
                    | c :: r4 => if c = rbrace then some ([(k, v)], r4) else none
                    | [] => none)
            | _ => none)
    | _ => none

end

/-- Model of `JSON.parse` restricted to the model simplifications noted
above: parses the whole string to a `JVal` or fails.  The fuel
`2 * length + 8` dominates the recursion depth of any input. -/
def jsonParse (s : String) : Option JVal :=
  match parseJVal (2 * s.length + 8) s.data with
  | some (v, rest) => if skipWs rest = [] then some v else none
  | none => none

/-- The body of the `try` block inside `formatStackdriverError`
(lines 220 to 221): `res.error.code + '. ' + res.error.message`, whose
property accesses can throw and are caught by the surrounding `catch`. -/
def tryCodeMessage (res : JVal) : Except JsErr String :=
  match getProp res "error" with
  | .error e => .error e
  | .ok re =>
      match getProp re "code" with
      | .error e => .error e
      | .ok c =>
          match getProp re "message" with
          | .error e => .error e
          | .ok mg => .ok (jsToString c ++ ". " ++ jsToString mg)

/-- `formatStackdriverError` (datasource.ts lines 215 to 229).  The
result is `Except` because JavaScript property access on a nullish
`error` argument throws before anything is caught. -/
def formatStackdriverError (error : JVal) : Except JsErr String :=
  match getProp error "statusText" with
  | .error e => .error e
  | .ok st =>
    let message := "Stackdriver: " ++ (if truthy st then jsToString st ++ ": " else "")
    match getProp error "data" with
    | .error e => .error e
    | .ok d =>
      if truthy d then
        match getProp d "error" with
        | .error e => .error e
        | .ok de =>
          if truthy de then
            match jsonParse (jsToString de) with
            | some res =>
                match tryCodeMessage res with
                | .ok tail => .ok (message ++ tail)
                | .error _ => .ok (message ++ jsToString de)
            | none => .ok (message ++ jsToString de)
          else .ok (message ++ "Cannot connect to Stackdriver API")
      else .ok (message ++ "Cannot connect to Stackdriver API")

/-- Build an error value with an optional string `statusText` field and
an optional `data.error` string field, the shapes named by the spec. -/
def mkError (st : Option String) (de : Option String) : JVal :=
  .obj
    ((match st with
      | some s => [("statusText", JVal.str s)]
      | none => []) ++
     (match de with
      | some s => [("data", JVal.obj [("error", JVal.str s)])]
      | none => []))

/-- The fragment `statusText` contributes to the formatted message. -/
def statusPart : Option String → String
  | some s => if s = "" then "" else s ++ ": "
  | none => ""

/-- The fragment a truthy `data.error` string contributes: the parsed
`<code>. <message>` when `JSON.parse` succeeds and the `error` member
carries `code`/`message` properties reachable without a `TypeError`,
and the raw string otherwise. -/
def fmtTail (de : String) : String :=
  match jsonParse de with
  | some res =>
      match tryCodeMessage res with
      | .ok tail => tail
      | .error _ => de
  | none => de

/-- The host application template service, with the scoped variables of
the call already applied: `replace` models
`templateSrv.replace(text, scopedVars)` and `replaceCsv` models
`templateSrv.replace(text, scopedVars, 'csv')`. -/
structure TemplateSrv where
  replace : String → String
  replaceCsv : String → String

/-- A panel target (one entry of `options.targets`).  Optional string
fields are modelled as `String` with `""` standing for a missing or
empty (both falsy) value; `hide` is `false` when absent. -/
structure Target where
  refId : String := ""
  metricType : String := ""
  crossSeriesReducer : String := ""
  perSeriesAligner : String := ""
  alignmentPeriod : String := ""
  groupBys : List String := []
  view : String := ""
  filters : List String := []
  aliasBy : String := ""
  hide : Bool := false
  unit : Option String := none
deriving DecidableEq, Repr

/-- The parts of the panel `options` object that `getTimeSeries` and
`query` read.  `rangeFrom`/`rangeTo` are the epoch-millisecond values of
`options.range.from.valueOf()` and `options.range.to.valueOf()`. -/
structure QueryOptions where
  targets : List Target := []
  intervalMs : Int := 0
  rangeFrom : Int := 0
  rangeTo : Int := 0
deriving DecidableEq, Repr

/-- One backend-bound query descriptor (datasource.ts lines 32 to 47). -/
structure TimeSeriesQueryDescriptor where
  refId : String
  intervalMs : Int
  datasourceId : Int
  metricType : String
  primaryAggregation : String
  perSeriesAligner : String
  alignmentPeriod : String
  groupBys : List String
  view : String
  filters : List String
  aliasBy : String
  type : String
deriving DecidableEq, Repr

/-- The POST request `getTimeSeries` issues (lines 51 to 59). -/
structure TSRequest where
  url : String := "/api/tsdb/query"
  method : String := "POST"
  fromTime : String := ""
  toTime : String := ""
  queries : List TimeSeriesQueryDescriptor := []
deriving DecidableEq, Repr

/-- One series of a per-query result: `{name, points}` with points as
`[value, timestampMs]` pairs (point payloads are passed through
unchanged, so their numeric type is modelled as `Int × Int`). -/
structure SeriesData where
  name : String := ""
  points : List (Int × Int) := []
deriving DecidableEq, Repr

/-- One per-`refId` query result of the backend response.  `series` is
`none` when the field is absent (falsy) and `some []` for an empty
array (truthy, but contributing no series). -/
structure QueryRes where
  refId : String := ""
  series : Option (List SeriesData) := none
  meta : Option String := none
deriving DecidableEq, Repr

/-- The `data` of the backend response to `getTimeSeries`.  `results`
is `none` when the field is absent; the short-circuit return
`{ results: [] }` of line 62 is `some []` (an empty array is truthy and
has no values to iterate). -/
structure TSData where
  results : Option (List QueryRes) := none
deriving DecidableEq, Repr

/-- `interpolateGroupBys` (lines 83 to 94): each group-by is
interpolated with the csv format and split on commas, and the pieces
are concatenated in order.  `String.split(',')` always returns an
array in JavaScript, so the `Array.isArray` guard of line 87 always
takes the concat branch, which is the only branch modelled. -/
def interpolateGroupBys (tsrv : TemplateSrv) (groupBys : List String) : List String :=
  groupBys.foldl (fun acc gb => acc ++ (tsrv.replaceCsv gb).splitOn ",") []

/-- The descriptor built from one target (lines 31 to 48).  The
`crossSeriesReducer || 'REDUCE_MEAN'` and `view || 'FULL'` defaults of
the source are the `= ""` branches here. -/
def mkTimeSeriesQuery (tsrv : TemplateSrv) (dsId : Int) (options : QueryOptions)
    (t : Target) : TimeSeriesQueryDescriptor :=
  { refId := t.refId
    intervalMs := options.intervalMs
    datasourceId := dsId
    metricType := tsrv.replace t.metricType
    primaryAggregation :=
      tsrv.replace (if t.crossSeriesReducer = "" then "REDUCE_MEAN" else t.crossSeriesReducer)
    perSeriesAligner := tsrv.replace t.perSeriesAligner
    alignmentPeriod := tsrv.replace t.alignmentPeriod
    groupBys := interpolateGroupBys tsrv t.groupBys
    view := if t.view = "" then "FULL" else t.view
    filters := t.filters.map tsrv.replace
    aliasBy := tsrv.replace t.aliasBy
    type := "timeSeriesQuery" }

/-- The `queries` constant of `getTimeSeries` (lines 27 to 48): targets
whose `hide` is truthy or whose `metricType` is falsy are filtered out,
the rest are mapped to descriptors in order. -/
def buildTimeSeriesQueries (tsrv : TemplateSrv) (dsId : Int)
    (options : QueryOptions) : List TimeSeriesQueryDescriptor :=
  (options.targets.filter (fun t => !t.hide && !(t.metricType == ""))).map
    (mkTimeSeriesQuery tsrv dsId options)

/-- `getTimeSeries` (lines 26 to 64).  The transport
`backendSrv.datasourceRequest` is the pure function `tr`; the requests
issued are returned alongside the response data so that network calls
are observable.  With no queries the request is skipped and
`{ results: [] }` is returned. -/
def getTimeSeries (tsrv : TemplateSrv) (dsId : Int) (tr : TSRequest → TSData)
    (options : QueryOptions) : TSData × List TSRequest :=
  let queries := buildTimeSeriesQueries tsrv dsId options
  if queries.length > 0 then
    let req : TSRequest :=
      { url := "/api/tsdb/query", method := "POST",
        fromTime := toString options.rangeFrom, toTime := toString options.rangeTo,
        queries := queries }
    (tr req, [req])
  else ({ results := some [] }, [])

/-- `resolvePanelUnitFromTargets` (lines 96 to 104).

Modelled from the spec: the static unit table `stackdriverUnitMappings`
is imported from `./constants`, which is not part of the sources; it is
modelled as an abstract finite map `mappings : String → Option String`
(`mappings u = some U` iff `hasOwnProperty(u)` holds with value `U`),
assumed not to bind exotic keys such as the string coercion of
`undefined`, so a missing `unit` field resolves to no unit. -/
def resolvePanelUnitFromTargets (mappings : String → Option String) :
    List Target → Option String
  | [] => none
  | t0 :: rest =>
    if (t0 :: rest).all (fun t => t.unit == t0.unit) then
      match t0.unit with
      | some u => mappings u
      | none => none
    else none

/-- Truthiness filter of line 122 (`if (unit)`): the unit field is
attached only when the resolved unit is a truthy (non-empty) string. -/
def truthyUnit : Option String → Option String
  | some u => if u = "" then none else some u
  | none => none

/-- One normalized output series (the `timeSerie` of lines 116 to 124). -/
structure TimeSerie where
  target : String
  datapoints : List (Int × Int)
  refId : String
  meta : Option String
  unit : Option String := none
deriving DecidableEq, Repr

/-- The value `query` resolves with (lines 128 and 130). -/
structure QueryData where
  data : List TimeSerie := []
deriving DecidableEq, Repr

/-- `query` (lines 106 to 132): normalizes the `getTimeSeries` response
into a flat ordered series list.  The `forEach`/`push` accumulation is
rendered as an ordered flat-map; results without a `series` field are
skipped; the batch unit is attached to every series when truthy. -/
def query (mappings : String → Option String) (tsrv : TemplateSrv) (dsId : Int)
    (tr : TSRequest → TSData) (options : QueryOptions) : QueryData × List TSRequest :=
  let res := getTimeSeries tsrv dsId tr options
  match res.1.results with
  | none => ({ data := [] }, res.2)
  | some results =>
      ({ data :=
          results.foldl (fun acc queryRes =>
            match queryRes.series with
            | none => acc
            | some series =>
                let unit := resolvePanelUnitFromTargets mappings options.targets
                acc ++ series.map (fun s =>
                  { target := s.name, datapoints := s.points, refId := queryRes.refId,
                    meta := queryRes.meta, unit := truthyUnit unit })) [] }, res.2)

/-- The target object of an annotation (`annotation.target`). -/
structure AnnotationTarget where
  metricType : String := ""
  title : String := ""
  text : String := ""
  tags : String := ""
  filters : List String := []
deriving DecidableEq, Repr

/-- The annotation object carried through to every produced event. -/
structure AnnotationCfg where
  target : AnnotationTarget := {}
deriving DecidableEq, Repr

/-- The parts of the `options` object `annotationQuery` reads. -/
structure AnnotationOptions where
  annot : AnnotationCfg := {}
  rangeFrom : Int := 0
  rangeTo : Int := 0
deriving DecidableEq, Repr

/-- The descriptor built by `annotationQuery` (lines 137 to 151). -/
structure AnnotationQueryDescriptor where
  refId : String
  datasourceId : Int
  metricType : String
  primaryAggregation : String
  perSeriesAligner : String
  title : String
  text : String
  tags : String
  view : String
  filters : List String
  type : String
deriving DecidableEq, Repr

/-- The POST request `annotationQuery` issues (lines 154 to 162). -/
structure AnnotationRequest where
  url : String := "/api/tsdb/query"
  method : String := "POST"
  fromTime : String := ""
  toTime : String := ""
  queries : List AnnotationQueryDescriptor := []
deriving DecidableEq, Repr

/-- The slice of the response `annotationQuery` consumes:
`data.results['annotationQuery'].tables[0].rows`, each row an array
read at indices 0, 1 and 3 (index 2 is unused). -/
structure AnnotationTables where
  rows : List (List String) := []
deriving DecidableEq, Repr

/-- One event produced by `annotationQuery` (lines 165 to 171). -/
structure AnnotationEvent where
  annot : AnnotationCfg
  time : Int
  title : String
  tags : List String
  text : String
deriving DecidableEq, Repr

/-- The `queries` constant of `annotationQuery` (lines 136 to 152):
always exactly one descriptor, reducer fixed to `REDUCE_NONE`, aligner
fixed to `ALIGN_NONE`, with `title`, `text` and `tags` interpolated
from the annotation target. -/
def buildAnnotationQueries (tsrv : TemplateSrv) (dsId : Int)
    (options : AnnotationOptions) : List AnnotationQueryDescriptor :=
  [{ refId := "annotationQuery"
     datasourceId := dsId
     metricType := tsrv.replace options.annot.target.metricType
     primaryAggregation := "REDUCE_NONE"
     perSeriesAligner := "ALIGN_NONE"
     title := tsrv.replace options.annot.target.title
     text := tsrv.replace options.annot.target.text
     tags := tsrv.replace options.annot.target.tags
     view := "FULL"
     filters := options.annot.target.filters.map tsrv.replace
     type := "annotationQuery" }]

/-- `annotationQuery` (lines 134 to 175).  `Date.parse` is the external
parameter `dateParse`; the issued request is returned alongside the
events.  Each result row becomes an event with `time` from column 0,
`title` from column 1, `text` from column 3 and `tags` the literal
empty array of line 169. -/
def annotationQuery (tsrv : TemplateSrv) (dsId : Int) (dateParse : String → Int)
    (tr : AnnotationRequest → AnnotationTables) (options : AnnotationOptions) :
    List AnnotationEvent × AnnotationRequest :=
  let req : AnnotationRequest :=
    { url := "/api/tsdb/query", method := "POST",
      fromTime := toString options.rangeFrom, toTime := toString options.rangeTo,
      queries := buildAnnotationQueries tsrv dsId options }
  let tables := tr req
  (tables.rows.map (fun v =>
      { annot := options.annot
        time := dateParse (v.getD 0 "")
        title := v.getD 1 ""
        tags := []
        text := v.getD 3 "" }), req)

/-- One raw metric descriptor as returned by the metric-descriptors
endpoint, before the derived fields are filled in. -/
structure RawMetricDescriptor where
  type : String := ""
  displayName : String := ""
deriving DecidableEq, Repr

/-- A processed metric descriptor with the derived fields of
lines 264 to 268. -/
structure MetricDescriptor where
  type : String
  displayName : String
  service : String
  serviceShortName : String
deriving DecidableEq, Repr

/-- The mutable instance fields of the datasource, plus the read-only
configuration set by the constructor (lines 17 to 24). -/
structure DsState where
  url : String := ""
  id : Int := 0
  baseUrl : String := "/stackdriver/"
  projectName : String := ""
  authenticationType : String := ""
  metricTypes : List MetricDescriptor := []
deriving DecidableEq, Repr

/-- The constructor (lines 17 to 24): `defaultProject || ''` is the
identity on the string model, `authenticationType || 'jwt'` defaults
the empty string to `jwt`, and the caches start empty. -/
def mkDatasourceState (url : String) (id : Int) (defaultProject : String)
    (authenticationType : String) : DsState :=
  { url := url, id := id, baseUrl := "/stackdriver/",
    projectName := defaultProject,
    authenticationType := if authenticationType = "" then "jwt" else authenticationType,
    metricTypes := [] }

/-- A value thrown by the embedded code: either a plain string (the
formatted message rethrown by `getDefaultProject`) or a JavaScript
exception raised while formatting. -/
inductive Thrown where
  | str (s : String)
  | exn (e : JsErr)
deriving DecidableEq, Repr

/-- `getDefaultProject` (lines 231 to 255).  The transport outcome `tr`
is the result of the lone `datasourceRequest` with the extraction
`data.results.ensureDefaultProjectQuery.meta.defaultProject` already
applied on success.  The third component counts the network requests
the call issues (`0` or `1`). -/
def getDefaultProject (tr : Except JVal String) (s : DsState) :
    Except Thrown String × DsState × Nat :=
  if s.authenticationType = "gce" ∨ s.projectName = "" then
    match tr with
    | .ok p => (.ok p, { s with projectName := p }, 1)
    | .error e =>
        (match formatStackdriverError e with
         | .ok m => .error (.str m)
         | .error te => .error (.exn te), s, 1)
  else (.ok s.projectName, s, 0)

/-- `doRequest` (lines 281 to 294): a GET of `this.url + url` through
the transport `tr`, retried on failure while `maxRetries` (the last
argument) is positive, decrementing it each time; the last failure is
propagated.  `tr` receives the requested path and the attempt index
`k`; the second component of the result is the list of requested paths
in order, one entry per attempt. -/
def doRequest {ε ρ : Type} (tr : String → Nat → Except ε ρ) (instUrl url : String)
    (k : Nat) : Nat → Except ε ρ × List String
  | 0 => (tr (instUrl ++ url) k, [instUrl ++ url])
  | n + 1 =>
    match tr (instUrl ++ url) k with
    | .ok r => (.ok r, [instUrl ++ url])
    | .error _ =>
        let res := doRequest tr instUrl url (k + 1) n
        (res.1, (instUrl ++ url) :: res.2)

/-- The per-descriptor processing of lines 264 to 270: `service` is the
first `/`-segment of `type`, `serviceShortName` the first `.`-segment
of `service`, and `displayName` defaults to `type` when falsy. -/
def processDescriptor (m : RawMetricDescriptor) : MetricDescriptor :=
  let service := (m.type.splitOn "/").headD ""
  let serviceShortName := (service.splitOn ".").headD ""
  { type := m.type
    displayName := if m.displayName = "" then m.type else m.displayName
    service := service
    serviceShortName := serviceShortName }

/-- `getMetricTypes` (lines 257 to 279).  The transport `tr` answers
the GET of `doRequest` (default `maxRetries = 1`) with the
`data.metricDescriptors` list on success or a thrown value on failure.
Result components: the call outcome (`Except` because the `catch`
block itself throws when `formatStackdriverError` does), the new
instance state, the `ds-request-error` messages emitted on `appEvents`,
and the requested paths. -/
def getMetricTypes (tr : String → Nat → Except JVal (List RawMetricDescriptor))
    (projectName : String) (s : DsState) :
    Except JsErr (List MetricDescriptor) × DsState × List String × List String :=
  if s.metricTypes.length = 0 then
    let metricsApiPath := "v3/projects/" ++ projectName ++ "/metricDescriptors"
    match doRequest tr s.url (s.baseUrl ++ metricsApiPath) 0 1 with
    | (.ok raws, log) =>
        let mts := raws.map processDescriptor
        (.ok mts, { s with metricTypes := mts }, [], log)
    | (.error e, log) =>
        match formatStackdriverError e with
        | .ok m => (.ok [], s, [m], log)
        | .error te => (.error te, s, [], log)
  else (.ok s.metricTypes, s, [], [])

/-! Concrete fixtures used by witness theorems. -/

/-- A template service that substitutes nothing. -/
def tsrvId : TemplateSrv := { replace := id, replaceCsv := id }

/-- A transport whose time-series response has no `results` field. -/
def noopTransport : TSRequest → TSData := fun _ => { results := none }

/-- An empty unit table. -/
def mapEmpty : String → Option String := fun _ => none

/-- Options whose only target is hidden. -/
def hiddenOptions : QueryOptions :=
  { targets := [{ refId := "A", metricType := "m", hide := true }] }

/-- A sample unit table binding the Stackdriver unit `By`. -/
def sampleUnitTable : String → Option String :=
  fun s => if s = "By" then some "bytes" else none

/-- A transport answering one query result with one series. -/
def seriesTransport : TSRequest → TSData := fun _ =>
  { results := some [{ refId := "A", series := some [{ name := "s", points := [(1, 2)] }] }] }

/-- Two visible targets sharing the unit `By`. -/
def unitOptionsSame : QueryOptions :=
  { targets := [{ refId := "A", metricType := "m", unit := some "By" },
                { refId := "B", metricType := "m", unit := some "By" }] }

/-- Two visible targets with differing units. -/
def unitOptionsDiff : QueryOptions :=
  { targets := [{ refId := "A", metricType := "m", unit := some "By" },
                { refId := "B", metricType := "m", unit := some "s" }] }

/-- A datasource state with server-side project resolution configured. -/
def gceState : DsState :=
  { url := "", id := 1, projectName := "", authenticationType := "gce" }

/-- A datasource state with jwt authentication and no configured project. -/
def jwtState : DsState :=
  { url := "", id := 1, projectName := "", authenticationType := "jwt" }

/-- A transport that fails on the first attempt and succeeds afterwards. -/
def failOnceTransport {ε ρ : Type} (e : ε) (r : ρ) : String → Nat → Except ε ρ :=
  fun _ k => if k = 0 then .error e else .ok r

/-- A transport that fails on every attempt, rejecting with the attempt
index so that the propagated failure identifies the last attempt. -/
def alwaysFailTransport : String → Nat → Except Nat Unit := fun _ k => .error k

/-- A datasource state with an empty metric-descriptor cache. -/
def emptyCacheState : DsState :=
  { url := "u", id := 1, projectName := "", authenticationType := "jwt" }

/-- A metric-descriptor transport that rejects with `null`. -/
def nullRejectTransport : String → Nat → Except JVal (List RawMetricDescriptor) :=
  fun _ _ => .error JVal.null

/-- A metric-descriptor transport that rejects with an empty object. -/
def objRejectTransport : String → Nat → Except JVal (List RawMetricDescriptor) :=
  fun _ _ => .error (JVal.obj [])

/-- A metric-descriptor transport that succeeds with one descriptor. -/
def okDescTransport : String → Nat → Except JVal (List RawMetricDescriptor) :=
  fun _ _ => .ok [{ type := "compute.googleapis.com/instance/cpu/usage" }]

/-- A datasource state whose metric-descriptor cache is populated. -/
def cachedState : DsState :=
  { emptyCacheState with
      metricTypes := [processDescriptor { type := "a.b/c", displayName := "d" }] }

/-- The error value of the first Error Formatter example of the spec. -/
def exampleNotFoundError : JVal :=
  .obj [("statusText", .str "Not Found"),
        ("data", .obj [("error",
            .str "\x7b\"error\":\x7b\"code\":404,\"message\":\"missing\"\x7d\x7d")])]

/-! ## Helper lemmas -/

/-- Folding append of a pointwise image is concatenation of the images. -/
theorem foldl_append_eq_bind {α β : Type} (f : α → List β) (l : List α)
    (init : List β) :
    l.foldl (fun acc x => acc ++ f x) init = init ++ l.flatMap f := by
  induction l generalizing init with
  | nil => simp
  | cons x xs ih => simp [ih, List.flatMap_cons]

/-- Mapping a constant function is replication. -/
theorem map_const_eq_replicate {α β : Type} (b : β) :
    ∀ l : List α, l.map (fun _ => b) = List.replicate l.length b := by
  intro l
  induction l with
  | nil => rfl
  | cons x xs ih => simp [ih, List.replicate_succ]

/-! ## C2: the Query Builder emits one descriptor per eligible target -/

/-- C2.  For every target list, `getTimeSeries` builds exactly one query
descriptor per target whose `hide` is falsy and whose `metricType` is
non-empty, in the original target order (witnessed by the `refId`
sequence), and the batch length equals the count of targets satisfying
that predicate; other targets contribute nothing and cause no error. -/
theorem stackdriver_C2 (tsrv : TemplateSrv) (dsId : Int) (options : QueryOptions) :
    (buildTimeSeriesQueries tsrv dsId options).length
        = options.targets.countP (fun t => !t.hide && !(t.metricType == "")) ∧
    (buildTimeSeriesQueries tsrv dsId options).map (fun q => q.refId)
        = (options.targets.filter (fun t => !t.hide && !(t.metricType == ""))).map
            (fun t => t.refId) := by
  constructor
  · simp [buildTimeSeriesQueries, List.countP_eq_length_filter]
  · simp only [buildTimeSeriesQueries, List.map_map]
    rfl

/-! ## C4: CSV-aware group-by interpolation flattens in order -/

/-- C4.  `interpolateGroupBys` is the ordered concatenation of the
comma-split csv interpolation of each entry: the output equals the
flat map of splitting, its length is the sum of the per-entry split
lengths, and an entry contributes its split as a contiguous block
between the flattenings of the surrounding entries. -/
theorem stackdriver_C4 (tsrv : TemplateSrv) (groupBys : List String) :
    interpolateGroupBys tsrv groupBys
        = groupBys.flatMap (fun gb => (tsrv.replaceCsv gb).splitOn ",") ∧
    (interpolateGroupBys tsrv groupBys).length
        = (groupBys.map (fun gb => ((tsrv.replaceCsv gb).splitOn ",").length)).sum ∧
    (∀ pre gb post,
        interpolateGroupBys tsrv (pre ++ gb :: post)
          = interpolateGroupBys tsrv pre ++ (tsrv.replaceCsv gb).splitOn ","
              ++ interpolateGroupBys tsrv post) := by
  have hbind : ∀ l, interpolateGroupBys tsrv l
      = l.flatMap (fun gb => (tsrv.replaceCsv gb).splitOn ",") := by
    intro l
    simpa [interpolateGroupBys] using foldl_append_eq_bind
      (fun gb => (tsrv.replaceCsv gb).splitOn ",") l []
  refine ⟨hbind groupBys, ?_, ?_⟩
  · rw [hbind]
    simp [List.length_flatMap, Function.comp_def]
  · intro pre gb post
    rw [hbind, hbind, hbind, List.flatMap_append, List.flatMap_cons, List.append_assoc]

/-! ## C10: annotation events carry empty tags and ignore column 2 -/

/-- C10.  Every event returned by `annotationQuery` has `tags = []`
regardless of the annotation target's `tags` field, which is
interpolated into the issued request descriptor but never copied into
the events; each result row maps to the event
`{time := dateParse row[0], title := row[1], text := row[3]}`, so
column 2 is ignored. -/
theorem stackdriver_C10 (tsrv : TemplateSrv) (dsId : Int) (dateParse : String → Int)
    (tr : AnnotationRequest → AnnotationTables) (options : AnnotationOptions) :
    ((annotationQuery tsrv dsId dateParse tr options).1.map (fun a => a.tags))
        = List.replicate (annotationQuery tsrv dsId dateParse tr options).1.length
            ([] : List String) ∧
    ((annotationQuery tsrv dsId dateParse tr options).2.queries.map (fun q => q.tags))
        = [tsrv.replace options.annot.target.tags] ∧
    (annotationQuery tsrv dsId dateParse tr options).1
      = (tr (annotationQuery tsrv dsId dateParse tr options).2).rows.map (fun v =>
          { annot := options.annot
            time := dateParse (v.getD 0 "")
            title := v.getD 1 ""
            tags := []
            text := v.getD 3 "" }) := by
  refine ⟨?_, rfl, rfl⟩
  simp only [annotationQuery, List.map_map, List.length_map]
  exact map_const_eq_replicate _ _

/-! ## C3: empty or fully filtered target lists short-circuit -/

/-- C3.  When every target is hidden or has an empty `metricType`
(including the empty target list), `getTimeSeries` issues no network
request and returns `{results: []}`, and consequently `query` returns
an empty data list. -/
theorem stackdriver_C3 (mappings : String → Option String) (tsrv : TemplateSrv)
    (dsId : Int) (tr : TSRequest → TSData) (options : QueryOptions)
    (h : ∀ t ∈ options.targets, t.hide = true ∨ t.metricType = "") :
    getTimeSeries tsrv dsId tr options = ({ results := some [] }, []) ∧
    query mappings tsrv dsId tr options = ({ data := [] }, []) := by
  have hfil : options.targets.filter (fun t => !t.hide && !(t.metricType == "")) = [] := by
    rw [List.filter_eq_nil_iff]
    intro t ht
    rcases h t ht with h1 | h1 <;> simp [h1]
  have hq : buildTimeSeriesQueries tsrv dsId options = [] := by
    rw [buildTimeSeriesQueries, hfil]
    rfl
  have hgts : getTimeSeries tsrv dsId tr options = ({ results := some [] }, []) := by
    simp [getTimeSeries, hq]
  refine ⟨hgts, ?_⟩
  simp [query, hgts]

/-- Witness for C3 at a concrete hidden target. -/
theorem stackdriver_C3_witness :
    getTimeSeries tsrvId 1 noopTransport hiddenOptions = ({ results := some [] }, []) ∧
    query mapEmpty tsrvId 1 noopTransport hiddenOptions = ({ data := [] }, []) :=
  stackdriver_C3 mapEmpty tsrvId 1 noopTransport hiddenOptions (by decide)

/-! ## C1: default-project caching -/

/-- Counterexample to C1 as stated: with `authenticationType = 'gce'`
the guard of line 233 is re-entered on every call (resolving the
project does not change the `=== 'gce'` disjunct), so two calls whose
first succeeds issue two network requests, not one. -/
theorem stackdriver_C1_counterexample :
    (getDefaultProject (Except.ok "resolved-project") gceState).2.2
        + (getDefaultProject (Except.ok "resolved-project")
            (getDefaultProject (Except.ok "resolved-project") gceState).2.1).2.2 = 2 ∧
    ¬ ((getDefaultProject (Except.ok "resolved-project") gceState).2.2
        + (getDefaultProject (Except.ok "resolved-project")
            (getDefaultProject (Except.ok "resolved-project") gceState).2.1).2.2 = 1) ∧
    (getDefaultProject (Except.ok "resolved-project") gceState).1
        = Except.ok "resolved-project" :=
  ⟨by decide, by decide, rfl⟩

/-- C1 as amended.  Caching applies only when the authentication type is
not `gce`: with no statically configured project, a first successful
call resolving a non-empty project issues one network request, stores
the project, and a second call returns the cached value with no network
request (for `gce` every call issues a request, as the counterexample
shows). -/
theorem stackdriver_C1_cached (s : DsState) (tr2 : Except JVal String) (p : String)
    (h1 : s.authenticationType ≠ "gce") (h2 : s.projectName = "") (h3 : ¬ p = "") :
    getDefaultProject (Except.ok p) s = (Except.ok p, { s with projectName := p }, 1) ∧
    getDefaultProject tr2 { s with projectName := p }
        = (Except.ok p, { s with projectName := p }, 0) := by
  constructor
  · rw [getDefaultProject.eq_def, if_pos (Or.inr h2)]
  · rw [getDefaultProject.eq_def, if_neg]
    rintro (hg | hp)
    · exact h1 hg
    · exact h3 hp

/-- Witness for C1 as amended, at a jwt-authenticated state. -/
theorem stackdriver_C1_cached_witness :
    getDefaultProject (Except.ok "proj-a") jwtState
        = (Except.ok "proj-a", { jwtState with projectName := "proj-a" }, 1) ∧
    getDefaultProject (Except.error JVal.null) { jwtState with projectName := "proj-a" }
        = (Except.ok "proj-a", { jwtState with projectName := "proj-a" }, 0) :=
  stackdriver_C1_cached jwtState (Except.error JVal.null) "proj-a" (by decide) rfl (by decide)

/-! ## C6: bounded retry of single-resource requests -/

/-- Every attempt of `doRequest` targets the same path, and a budget of
`n` retries allows at most `n + 1` attempts. -/
theorem doRequest_log_replicate {ε ρ : Type} (tr : String → Nat → Except ε ρ)
    (instUrl url : String) :
    ∀ (n k : Nat),
      (doRequest tr instUrl url k n).2
          = List.replicate (doRequest tr instUrl url k n).2.length (instUrl ++ url) ∧
      (doRequest tr instUrl url k n).2.length ≤ n + 1 := by
  intro n
  induction n with
  | zero => intro k; simp [doRequest]
  | succ n ih =>
      intro k
      cases htr : tr (instUrl ++ url) k with
      | ok r => simp [doRequest, htr]
      | error e =>
          obtain ⟨h1, h2⟩ := ih (k + 1)
          constructor
          · simp only [doRequest, htr, List.length_cons, List.replicate_succ]
            rw [← h1]
          · simp only [doRequest, htr, List.length_cons]
            omega

/-- A transport failing on every attempt makes `doRequest` run all
`n + 1` attempts and propagate the failure of the last one. -/
theorem doRequest_alwaysFail (instUrl url : String) :
    ∀ (n k : Nat),
      doRequest alwaysFailTransport instUrl url k n
        = (Except.error (k + n), List.replicate (n + 1) (instUrl ++ url)) := by
  intro n
  induction n with
  | zero => intro k; simp [doRequest, alwaysFailTransport]
  | succ n ih =>
      intro k
      simp only [doRequest, alwaysFailTransport, ih (k + 1), List.replicate_succ]
      have harith : k + 1 + n = k + (n + 1) := by omega
      rw [harith]

/-- C6.  `doRequest` with `maxRetries = 1` against a transport failing
once then succeeding returns the success after two attempts on the same
path; against an always-failing transport with budget `n` it makes
exactly `n + 1` attempts on the same path and propagates the last
failure; in general at most `n + 1` attempts are made, all on the same
path. -/
theorem stackdriver_C6 {ε ρ : Type} (e : ε) (r : ρ) (tr : String → Nat → Except ε ρ)
    (instUrl url : String) :
    doRequest (failOnceTransport e r) instUrl url 0 1
        = (Except.ok r, [instUrl ++ url, instUrl ++ url]) ∧
    (∀ n k, doRequest alwaysFailTransport instUrl url k n
        = (Except.error (k + n), List.replicate (n + 1) (instUrl ++ url))) ∧
    (∀ n k,
      (doRequest tr instUrl url k n).2
          = List.replicate (doRequest tr instUrl url k n).2.length (instUrl ++ url) ∧
      (doRequest tr instUrl url k n).2.length ≤ n + 1) :=
  ⟨rfl, doRequest_alwaysFail instUrl url, doRequest_log_replicate tr instUrl url⟩

/-! ## C5: batch-level unit resolution -/

/-- Every series accumulated by the normalization fold of `query`
carries the truthiness-filtered batch unit. -/
theorem mem_query_foldl (mappings : String → Option String) (options : QueryOptions) :
    ∀ (results : List QueryRes) (acc : List TimeSerie) (ts : TimeSerie),
      ts ∈ results.foldl (fun acc queryRes =>
          match queryRes.series with
          | none => acc
          | some series =>
              let unit := resolvePanelUnitFromTargets mappings options.targets
              acc ++ series.map (fun s =>
                { target := s.name, datapoints := s.points, refId := queryRes.refId,
                  meta := queryRes.meta, unit := truthyUnit unit })) acc →
      ts ∈ acc ∨ ts.unit = truthyUnit (resolvePanelUnitFromTargets mappings options.targets) := by
  intro results
  induction results with
  | nil => intro acc ts h; exact Or.inl h
  | cons qr rest ih =>
      intro acc ts h
      rw [List.foldl_cons] at h
      cases hqs : qr.series with
      | none =>
          rw [hqs] at h
          exact ih acc ts h
      | some series =>
          rw [hqs] at h
          rcases ih _ ts h with hin | hu
          · rcases List.mem_append.mp hin with h1 | h2
            · exact Or.inl h1
            · right
              obtain ⟨s, _, rfl⟩ := List.mem_map.mp h2
              rfl
          · exact Or.inr hu

/-- Every series `query` outputs carries the truthiness-filtered batch
unit resolved from the full target list. -/
theorem query_unit_eq (mappings : String → Option String) (tsrv : TemplateSrv)
    (dsId : Int) (tr : TSRequest → TSData) (options : QueryOptions) :
    ∀ ts ∈ (query mappings tsrv dsId tr options).1.data,
      ts.unit = truthyUnit (resolvePanelUnitFromTargets mappings options.targets) := by
  intro ts hts
  cases hres : (getTimeSeries tsrv dsId tr options).1.results with
  | none => simp [query, hres] at hts
  | some results =>
      simp only [query, hres] at hts
      rcases mem_query_foldl mappings options results [] ts hts with hin | hu
      · exact absurd hin (List.not_mem_nil ts)
      · exact hu

/-- When the target list is non-empty, all targets share a unit, and
the table maps it, resolution yields the mapped unit. -/
theorem resolve_of_all_eq (mappings : String → Option String) (targets : List Target)
    (u U : String) (hne : targets ≠ [])
    (hall : ∀ t ∈ targets, t.unit = some u) (hm : mappings u = some U) :
    resolvePanelUnitFromTargets mappings targets = some U := by
  cases targets with
  | nil => exact absurd rfl hne
  | cons t0 rest =>
      have h0 : t0.unit = some u := hall t0 (List.mem_cons_self t0 rest)
      have hb : (t0 :: rest).all (fun t => t.unit == t0.unit) = true := by
        rw [List.all_eq_true]
        intro t ht
        rw [beq_iff_eq, hall t ht, h0]
      rw [resolvePanelUnitFromTargets, if_pos hb, h0]
      exact hm

/-- Two targets with differing units make resolution yield no unit. -/
theorem resolve_of_ne (mappings : String → Option String) (targets : List Target)
    (t1 t2 : Target) (h1 : t1 ∈ targets) (h2 : t2 ∈ targets)
    (hne : t1.unit ≠ t2.unit) :
    resolvePanelUnitFromTargets mappings targets = none := by
  cases targets with
  | nil => exact absurd h1 (List.not_mem_nil t1)
  | cons t0 rest =>
      rw [resolvePanelUnitFromTargets, if_neg]
      intro hb
      rw [List.all_eq_true] at hb
      have e1 := hb t1 h1
      have e2 := hb t2 h2
      rw [beq_iff_eq] at e1 e2
      exact hne (e1.trans e2.symm)

/-- A shared unit with no table entry makes resolution yield no unit. -/
theorem resolve_of_unmapped (mappings : String → Option String) (targets : List Target)
    (u : String) (hall : ∀ t ∈ targets, t.unit = some u) (hm : mappings u = none) :
    resolvePanelUnitFromTargets mappings targets = none := by
  cases targets with
  | nil => rfl
  | cons t0 rest =>
      have h0 : t0.unit = some u := hall t0 (List.mem_cons_self t0 rest)
      rw [resolvePanelUnitFromTargets]
      by_cases hb : (t0 :: rest).all (fun t => t.unit == t0.unit) = true
      · rw [if_pos hb, h0]
        exact hm
      · rw [if_neg hb]

/-- C5.  Unit resolution of the Response Normalizer: when the batch is
non-empty, every target shares the same unit, and the static table maps
it to a (truthy) display unit `U`, every output series carries
`unit = U`; when two targets have differing units, or the shared unit
has no table entry, no output series carries a unit. -/
theorem stackdriver_C5 (mappings : String → Option String) (tsrv : TemplateSrv)
    (dsId : Int) (tr : TSRequest → TSData) (options : QueryOptions) :
    (∀ u U, options.targets ≠ [] → (∀ t ∈ options.targets, t.unit = some u) →
        mappings u = some U → U ≠ "" →
        ((query mappings tsrv dsId tr options).1.data.all
            (fun ts => ts.unit == some U)) = true) ∧
    (∀ t1 t2, t1 ∈ options.targets → t2 ∈ options.targets → t1.unit ≠ t2.unit →
        ((query mappings tsrv dsId tr options).1.data.all
            (fun ts => ts.unit == none)) = true) ∧
    (∀ u, (∀ t ∈ options.targets, t.unit = some u) → mappings u = none →
        ((query mappings tsrv dsId tr options).1.data.all
            (fun ts => ts.unit == none)) = true) := by
  refine ⟨?_, ?_, ?_⟩
  · intro u U hne hall hm hU
    rw [List.all_eq_true]
    intro ts hts
    rw [beq_iff_eq, query_unit_eq mappings tsrv dsId tr options ts hts,
      resolve_of_all_eq mappings options.targets u U hne hall hm, truthyUnit, if_neg hU]
  · intro t1 t2 h1 h2 hne
    rw [List.all_eq_true]
    intro ts hts
    rw [beq_iff_eq, query_unit_eq mappings tsrv dsId tr options ts hts,
      resolve_of_ne mappings options.targets t1 t2 h1 h2 hne]
    rfl
  · intro u hall hm
    rw [List.all_eq_true]
    intro ts hts
    rw [beq_iff_eq, query_unit_eq mappings tsrv dsId tr options ts hts,
      resolve_of_unmapped mappings options.targets u hall hm]
    rfl

/-- Witness for C5: a shared mapped unit is attached to every output
series; differing units leave every output series without a unit. -/
theorem stackdriver_C5_witness :
    ((query sampleUnitTable tsrvId 1 seriesTransport unitOptionsSame).1.data.all
        (fun ts => ts.unit == some "bytes")) = true ∧
    ((query sampleUnitTable tsrvId 1 seriesTransport unitOptionsDiff).1.data.all
        (fun ts => ts.unit == none)) = true :=
  ⟨(stackdriver_C5 sampleUnitTable tsrvId 1 seriesTransport unitOptionsSame).1
      "By" "bytes" (by decide) (by decide) rfl (by decide),
   (stackdriver_C5 sampleUnitTable tsrvId 1 seriesTransport unitOptionsDiff).2.1
      { refId := "A", metricType := "m", unit := some "By" }
      { refId := "B", metricType := "m", unit := some "s" }
      (by decide) (by decide) (by decide)⟩

/-! ## C7 and C8: the error formatter -/

/-- The `statusText` value carried by `mkError`. -/
def stValue : Option String → JVal
  | some s => JVal.str s
  | none => JVal.undefined

/-- The message fragment contributed by a `statusText` value. -/
def statusFrag (stv : JVal) : String :=
  if truthy stv then jsToString stv ++ ": " else ""

/-- `mkError` stores the requested `statusText` value. -/
theorem getProp_mkError_statusText (st : Option String) (de : Option String) :
    getProp (mkError st de) "statusText" = Except.ok (stValue st) := by
  cases st <;> cases de <;> rfl

/-- `mkError` stores the requested `data` value. -/
theorem getProp_mkError_data (st : Option String) (de : Option String) :
    getProp (mkError st de) "data"
      = Except.ok (match de with
          | some s => JVal.obj [("error", JVal.str s)]
          | none => JVal.undefined) := by
  cases st <;> cases de <;> rfl

/-- On string-valued `statusText` fields the raw fragment agrees with
`statusPart`. -/
theorem statusFrag_eq (st : Option String) : statusFrag (stValue st) = statusPart st := by
  cases st with
  | none => rfl
  | some s =>
      by_cases hs : s = ""
      · subst hs; rfl
      · unfold statusFrag statusPart stValue
        dsimp only
        rw [if_pos (show truthy (JVal.str s) = true from by simp [truthy, hs]),
          if_neg hs]
        rfl

/-- Backbone of the formatter analysis: with a string `statusText`
resolution and a string `data.error`, the formatted message is the
prefix, the status fragment, and the tail determined by `fmtTail`
(or the generic message when `data.error` is the falsy empty string). -/
theorem format_data_error_str (error : JVal) (stv : JVal) (de : String)
    (hst : getProp error "statusText" = Except.ok stv)
    (hd : getProp error "data" = Except.ok (JVal.obj [("error", JVal.str de)])) :
    formatStackdriverError error
      = Except.ok (("Stackdriver: " ++ statusFrag stv)
          ++ (if de = "" then "Cannot connect to Stackdriver API" else fmtTail de)) := by
  unfold formatStackdriverError
  rw [hst, hd]
  dsimp only
  rw [if_pos (show truthy (JVal.obj [("error", JVal.str de)]) = true from rfl)]
  rw [show getProp (JVal.obj [("error", JVal.str de)]) "error" = Except.ok (JVal.str de)
    from rfl]
  dsimp only
  by_cases hde : de = ""
  · subst hde
    rw [if_neg (show ¬ truthy (JVal.str "") = true from by decide)]
    rfl
  · rw [if_pos (show truthy (JVal.str de) = true from by simp [truthy, hde])]
    rw [show jsToString (JVal.str de) = de from rfl]
    rw [if_neg hde]
    unfold fmtTail
    cases hp : jsonParse de with
    | none => rfl
    | some res =>
        dsimp only
        cases htc : tryCodeMessage res with
        | ok t => rfl
        | error e2 => rfl

/-- The formatted message for an error with an optional string
`statusText` and a string `data.error`. -/
theorem format_mkError_some (st : Option String) (de : String) :
    formatStackdriverError (mkError st (some de))
      = Except.ok (("Stackdriver: " ++ statusPart st)
          ++ (if de = "" then "Cannot connect to Stackdriver API" else fmtTail de)) := by
  rw [format_data_error_str (mkError st (some de)) (stValue st) de
      (getProp_mkError_statusText st (some de)) (getProp_mkError_data st (some de)),
    statusFrag_eq]

/-- The formatted message for an error without a `data.error` field. -/
theorem format_mkError_none (st : Option String) :
    formatStackdriverError (mkError st none)
      = Except.ok (("Stackdriver: " ++ statusPart st)
          ++ "Cannot connect to Stackdriver API") := by
  unfold formatStackdriverError
  rw [getProp_mkError_statusText st none, getProp_mkError_data st none]
  rw [← statusFrag_eq st]
  rfl

/-- C7.  The error formatter maps the spec's two examples to
`"Stackdriver: Not Found: 404. missing"` and
`"Stackdriver: Cannot connect to Stackdriver API"`; in general the
result starts with `"Stackdriver: "`, a present (truthy) `statusText`
is appended followed by `": "`, a truthy `data.error` string
contributes `"<code>. <message>"` when it parses as JSON with a
reachable `error.code`/`error.message` and the raw string otherwise
(`fmtTail`), and without a truthy `data.error` the generic message is
appended. -/
theorem stackdriver_C7 :
    formatStackdriverError exampleNotFoundError
        = Except.ok "Stackdriver: Not Found: 404. missing" ∧
    formatStackdriverError (JVal.obj [])
        = Except.ok "Stackdriver: Cannot connect to Stackdriver API" ∧
    (∀ st de, formatStackdriverError (mkError st (some de))
        = Except.ok (("Stackdriver: " ++ statusPart st)
            ++ (if de = "" then "Cannot connect to Stackdriver API" else fmtTail de))) ∧
    (∀ st, formatStackdriverError (mkError st none)
        = Except.ok (("Stackdriver: " ++ statusPart st)
            ++ "Cannot connect to Stackdriver API")) :=
  ⟨rfl, rfl, format_mkError_some, format_mkError_none⟩

/-- Property access on any value that is neither `null` nor `undefined`
succeeds. -/
theorem getProp_ok (v : JVal) (key : String) (h1 : v ≠ JVal.null)
    (h2 : v ≠ JVal.undefined) : ∃ w, getProp v key = Except.ok w := by
  cases v with
  | null => exact absurd rfl h1
  | undefined => exact absurd rfl h2
  | obj fields =>
      cases hl : (fields.filter (fun p => p.1 == key)).getLast? with
      | some p => exact ⟨p.2, by simp [getProp, hl]⟩
      | none => exact ⟨JVal.undefined, by simp [getProp, hl]⟩
  | bool b => exact ⟨JVal.undefined, rfl⟩
  | num n => exact ⟨JVal.undefined, rfl⟩
  | str s => exact ⟨JVal.undefined, rfl⟩
  | arr xs => exact ⟨JVal.undefined, rfl⟩

/-- Truthy values are neither `null` nor `undefined`. -/
theorem truthy_ne_nullish (v : JVal) (h : truthy v = true) :
    v ≠ JVal.null ∧ v ≠ JVal.undefined := by
  cases v <;> simp_all [truthy]

/-- Counterexample to C8 as stated: the formatter is applied to the
caught value of a rejected promise, which can be any JavaScript value;
at the input `null` the very first property access
`error.statusText` throws a `TypeError`, so the formatter does not
return a string for every input. -/
theorem stackdriver_C8_counterexample :
    formatStackdriverError JVal.null = Except.error JsErr.typeError := rfl

/-- C8 as amended.  For every input that is not `null` or `undefined`,
the formatter returns a string and never raises: the `try`/`catch`
around the JSON parse confines every parse failure and every
`TypeError` from a wrong-shape parsed value.  A `data.error` string
that fails to parse as JSON degrades to appending the raw string
(second conjunct; a wrong-shape parse may instead append the coerced
`code`/`message` fields, but never escapes as an exception, by the
first conjunct). -/
theorem stackdriver_C8_amended :
    (∀ e : JVal, e ≠ JVal.null → e ≠ JVal.undefined →
        ∃ s, formatStackdriverError e = Except.ok s) ∧
    (∀ st de, jsonParse de = none →
        formatStackdriverError (mkError st (some de))
          = Except.ok (("Stackdriver: " ++ statusPart st)
              ++ (if de = "" then "Cannot connect to Stackdriver API" else de))) := by
  constructor
  · intro e h1 h2
    obtain ⟨stv, hst⟩ := getProp_ok e "statusText" h1 h2
    obtain ⟨d, hd⟩ := getProp_ok e "data" h1 h2
    unfold formatStackdriverError
    rw [hst, hd]
    dsimp only
    by_cases htd : truthy d = true
    · obtain ⟨hn1, hn2⟩ := truthy_ne_nullish d htd
      obtain ⟨de, hde⟩ := getProp_ok d "error" hn1 hn2
      rw [if_pos htd, hde]
      dsimp only
      by_cases htde : truthy de = true
      · rw [if_pos htde]
        cases hp : jsonParse (jsToString de) with
        | some res =>
            dsimp only
            cases htc : tryCodeMessage res with
            | ok t => exact ⟨_, rfl⟩
            | error e2 => exact ⟨_, rfl⟩
        | none => exact ⟨_, rfl⟩
      · rw [if_neg htde]
        exact ⟨_, rfl⟩
    · rw [if_neg htd]
      exact ⟨_, rfl⟩
  · intro st de hp
    rw [format_mkError_some st de]
    by_cases hde : de = ""
    · rw [if_pos hde, if_pos hde]
    · rw [if_neg hde, if_neg hde]
      unfold fmtTail
      rw [hp]

/-- Witness for C8 as amended, at an empty object and an unparsable
`data.error` string. -/
theorem stackdriver_C8_amended_witness :
    (∃ s, formatStackdriverError (JVal.obj []) = Except.ok s) ∧
    formatStackdriverError (mkError (some "Not Found") (some "boom"))
        = Except.ok (("Stackdriver: " ++ statusPart (some "Not Found"))
            ++ (if "boom" = "" then "Cannot connect to Stackdriver API" else "boom")) :=
  ⟨stackdriver_C8_amended.1 (JVal.obj [])
      (fun h => JVal.noConfusion h) (fun h => JVal.noConfusion h),
   stackdriver_C8_amended.2 (some "Not Found") "boom" rfl⟩

/-! ## C9: the metric-catalog resolver -/

/-- Counterexample to C9 as stated: when the transport rejects with
`null`, the `catch` block evaluates
`formatStackdriverError(error)` before emitting, which throws a
`TypeError`; `getMetricTypes` then raises to its caller and emits no
notification at all. -/
theorem stackdriver_C9_counterexample :
    getMetricTypes nullRejectTransport "proj" emptyCacheState
      = (Except.error JsErr.typeError, emptyCacheState, ([] : List String),
         ["u/stackdriver/v3/projects/proj/metricDescriptors",
          "u/stackdriver/v3/projects/proj/metricDescriptors"]) := rfl

/-- C9 as amended.  `getMetricTypes` never raises to its caller
provided the rejection value is one the formatter tolerates (any
non-nullish value): on such a fetch failure it emits exactly one
notification carrying the formatted error and returns an empty list,
leaving the cache empty; on success with an empty cache it populates
the cache with descriptors whose `service` is the first `/`-segment of
`type` and whose `serviceShortName` is the first `.`-segment of
`service`; with a non-empty cache it returns the cache without any
network request. -/
theorem stackdriver_C9_amended :
    (∀ (tr : String → Nat → Except JVal (List RawMetricDescriptor)) (pn : String)
        (s : DsState) (e : JVal) (log : List String) (m : String),
      s.metricTypes = [] →
      doRequest tr s.url (s.baseUrl ++ ("v3/projects/" ++ pn ++ "/metricDescriptors")) 0 1
          = (Except.error e, log) →
      formatStackdriverError e = Except.ok m →
      getMetricTypes tr pn s = (Except.ok [], s, [m], log)) ∧
    (∀ (tr : String → Nat → Except JVal (List RawMetricDescriptor)) (pn : String)
        (s : DsState) (raws : List RawMetricDescriptor) (log : List String),
      s.metricTypes = [] →
      doRequest tr s.url (s.baseUrl ++ ("v3/projects/" ++ pn ++ "/metricDescriptors")) 0 1
          = (Except.ok raws, log) →
      getMetricTypes tr pn s
          = (Except.ok (raws.map processDescriptor),
             { s with metricTypes := raws.map processDescriptor }, [], log)) ∧
    (∀ m : RawMetricDescriptor,
      (processDescriptor m).service = (m.type.splitOn "/").headD "" ∧
      (processDescriptor m).serviceShortName
          = (((m.type.splitOn "/").headD "").splitOn ".").headD "") ∧
    (∀ (tr : String → Nat → Except JVal (List RawMetricDescriptor)) (pn : String)
        (s : DsState), s.metricTypes ≠ [] →
      getMetricTypes tr pn s = (Except.ok s.metricTypes, s, [], [])) := by
  refine ⟨?_, ?_, ?_, ?_⟩
  · intro tr pn s e log m hc hreq hfmt
    unfold getMetricTypes
    rw [if_pos (show s.metricTypes.length = 0 by rw [hc]; rfl)]
    dsimp only
    rw [hreq]
    dsimp only
    rw [hfmt]
  · intro tr pn s raws log hc hreq
    unfold getMetricTypes
    rw [if_pos (show s.metricTypes.length = 0 by rw [hc]; rfl)]
    dsimp only
    rw [hreq]
  · intro m
    exact ⟨rfl, rfl⟩
  · intro tr pn s hne
    unfold getMetricTypes
    rw [if_neg (fun hlen => hne (List.length_eq_zero.mp hlen))]

/-- Witness for C9 as amended, covering the failure, success and cached
paths at concrete transports and states. -/
theorem stackdriver_C9_amended_witness :
    getMetricTypes objRejectTransport "proj" emptyCacheState
        = (Except.ok [], emptyCacheState,
           ["Stackdriver: Cannot connect to Stackdriver API"],
           ["u/stackdriver/v3/projects/proj/metricDescriptors",
            "u/stackdriver/v3/projects/proj/metricDescriptors"]) ∧
    getMetricTypes okDescTransport "proj" emptyCacheState
        = (Except.ok
             ([{ type := "compute.googleapis.com/instance/cpu/usage" }].map
                processDescriptor),
           { emptyCacheState with
               metricTypes :=
                 [{ type := "compute.googleapis.com/instance/cpu/usage" }].map
                   processDescriptor }, [],
           ["u/stackdriver/v3/projects/proj/metricDescriptors"]) ∧
    getMetricTypes okDescTransport "proj" cachedState
        = (Except.ok cachedState.metricTypes, cachedState, [], []) :=
  ⟨stackdriver_C9_amended.1 objRejectTransport "proj" emptyCacheState (JVal.obj [])
      ["u/stackdriver/v3/projects/proj/metricDescriptors",
       "u/stackdriver/v3/projects/proj/metricDescriptors"]
      "Stackdriver: Cannot connect to Stackdriver API" rfl rfl rfl,
   stackdriver_C9_amended.2.1 okDescTransport "proj" emptyCacheState
      [{ type := "compute.googleapis.com/instance/cpu/usage" }]
      ["u/stackdriver/v3/projects/proj/metricDescriptors"] rfl rfl,
   stackdriver_C9_amended.2.2.2 okDescTransport "proj" cachedState (by decide)⟩

end Stackdriver
